import Mathlib

/-!
Verification of the transcript aggregation and summarization pipeline implemented in
`app.py` of the VidBot repository.  The pure data flow of the program — string
construction for prompts and payloads, the aggregation loop, and the control flow of the
"Generate Combined Summary" button handler (which Python exception propagates where) —
is embedded as executable Lean definitions; the network calls themselves are modelled by
their outcomes (success value or raised exception), passed in as explicit inputs.
-/

namespace VidBot

/-- PROMPT_HEADER from app.py lines 24-34: the fixed instruction header that
`generate_summary` prepends to the combined transcript.  The Python triple-quoted string
starts immediately after the opening quotes and ends with a newline (the closing quotes
sit on their own line); line 33 ends with a space after the colon. -/
def PROMPT_HEADER : String :=
  "You are a professional video summarizer. You will be provided with multiple video transcripts.\nSummarize the overall combined insights from all these videos together in clear bullet points within 350 words.\nInclude:\n- Key highlights from each video\n- Common themes/topics discussed\n- Speaker-specific important notes if available\n- Any contrasts or different viewpoints between videos\n- A final 2-line overall takeaway conclusion.\n\nHere are the combined transcripts: \n"

/-- Body of one iteration of the aggregation loop, app.py lines 115-119.  The
accumulator is `combined_transcript`; the pair `p` is `(idx, outcome)` produced by
`enumerate(urls, 1)`, where the outcome of `fetch_transcript(url)` is `some text` on
success and `none` when the fetch raised (in which case the handler runs
`combined_transcript += ""`).  Note that on an exception nothing at all is appended:
the separator is part of the same expression as the fetch call, so it is discarded
together with the failed fetch. -/
def aggregate_step (combined_transcript : String) (p : Nat × Option String) : String :=
  match p.2 with
  | some text =>
      combined_transcript ++ ("\n\n=== Transcript " ++ toString p.1 ++ " ===\n" ++ text)
  | none => combined_transcript ++ ""

/-- The aggregation loop of app.py lines 111-119: starting from the empty string, fold
`aggregate_step` over the fetch outcomes paired with their 1-based indices
(`enumerate(urls, 1)`). -/
def aggregate (results : List (Option String)) : String :=
  (List.enumFrom 1 results).foldl aggregate_step ""

/-- The contribution of the source at 1-based position `i` to the Aggregated Document,
as the specification states it: a blank line, the separator line, a newline, then the
transcript text on success, and the empty string on failure. -/
def contribution (i : Nat) : Option String → String
  | some text => "\n\n=== Transcript " ++ toString i ++ " ===\n" ++ text
  | none => ""

/-- Concatenation of a list of strings in order. -/
def concatStrings : List String → String
  | [] => ""
  | s :: rest => s ++ concatStrings rest

/-- The `contents` list passed to `client.models.generate_content` by
`generate_summary`, app.py lines 54-57: a single text block consisting of
PROMPT_HEADER concatenated with the combined transcript. -/
def generate_summary_contents (combined_transcript : String) : List String :=
  [PROMPT_HEADER ++ combined_transcript]

/-- The text field value built by `post_to_teams`, app.py line 72: a markdown header
followed by the summary text. -/
def teams_message (summary_text : String) : String :=
  "**📽️ Combined Video Summary**\n\n" ++ summary_text

/-- The JSON payload posted by `post_to_teams`, app.py line 72-73, modelled as its list
of (key, value) pairs: a single "text" field. -/
def post_to_teams_payload (summary_text : String) : List (String × String) :=
  [("text", teams_message summary_text)]

/-- The prompt built by `ask_chatbot`, app.py lines 80-88: fixed framing, then the
summary verbatim, then the question verbatim, then the answer cue.  The apostrophe in
the source is the Unicode right single quotation mark U+2019. -/
def ask_chatbot_prompt (summary_text question : String) : String :=
  "You are an assistant. Based on the following video summary, answer the user’s question clearly and briefly.\n\nVideo Summary:\n"
    ++ summary_text ++ "\n\nUser Question:\n" ++ question ++ "\n\nAnswer:"

/-- The generic (non-video) branch of `fetch_transcript`, app.py lines 47-49:
`requests.get(source)` followed by `resp.raise_for_status()` and `return resp.text`.
The final HTTP response is modelled by its status code and body text.  Per the requests
library, `Response.raise_for_status` raises `HTTPError` exactly for status codes in the
range 400-599 (client and server errors); for any other status the body is returned. -/
def fetch_generic (status : Nat) (body : String) : Option String :=
  if 400 ≤ status ∧ status < 600 then none else some body

/-- Inputs of one run of the "Generate Combined Summary" button handler (the `else`
branch of app.py lines 109-139), with every remote call replaced by its outcome:
`fetches` is the outcome of `fetch_transcript` per URL in input order (`none` means the
call raised); `summary` is the outcome of `generate_summary` (`none` means it raised);
`postEnabled` is the "Post summary to Microsoft Teams" checkbox; `teams` is the outcome
of `requests.post` inside `post_to_teams` (`none` means a transport exception was
raised, `some status` the final status code); `embedding` is the outcome of
`generate_embedding`. -/
structure RunInputs where
  fetches : List (Option String)
  summary : Option String
  postEnabled : Bool
  teams : Option Nat
  embedding : Option (List Int)

/-- Observable results of one handler run: the aggregated document; the `contents`
list passed to `generate_content`; the summary displayed by `st.write` (if reached);
the payload text handed to `requests.post` (if `post_to_teams` was invoked); whether
`post_to_teams` displayed its non-200 error; the embedding displayed (if reached); the
value of `st.session_state.summary` after the run (it keeps its previous value unless
line 137 executes); and whether the outer `except` of lines 138-139 displayed an
error. -/
structure RunOutput where
  combined : String
  sentToModel : List String
  summaryShown : Option String
  teamsPosted : Option String
  teamsErrorShown : Bool
  embeddingShown : Option (List Int)
  sessionSummary : Option String
  outerErrorShown : Bool

/-- The "Generate Combined Summary" button handler, app.py lines 109-139, as a function
from call outcomes to observable results.  Control flow follows Python exception
semantics: if `generate_summary` raises, the outer `except` catches it and nothing else
runs; if `requests.post` raises inside `post_to_teams`, the exception propagates to the
same outer `except`, so neither `generate_embedding` nor the `st.session_state.summary`
assignment runs; if `post_to_teams` merely sees a non-200 status it shows an error and
returns normally, so the run continues; if `generate_embedding` raises, the outer
`except` catches it and the `st.session_state.summary` assignment on line 137 does not
run. -/
def runHandler (prevSummary : Option String) (inp : RunInputs) : RunOutput :=
  let combined_transcript := aggregate inp.fetches
  let sent := generate_summary_contents combined_transcript
  match inp.summary with
  | none =>
      { combined := combined_transcript, sentToModel := sent, summaryShown := none,
        teamsPosted := none, teamsErrorShown := false, embeddingShown := none,
        sessionSummary := prevSummary, outerErrorShown := true }
  | some summary =>
      if inp.postEnabled then
        match inp.teams with
        | none =>
            { combined := combined_transcript, sentToModel := sent,
              summaryShown := some summary,
              teamsPosted := some (teams_message summary), teamsErrorShown := false,
              embeddingShown := none, sessionSummary := prevSummary,
              outerErrorShown := true }
        | some status =>
            match inp.embedding with
            | none =>
                { combined := combined_transcript, sentToModel := sent,
                  summaryShown := some summary,
                  teamsPosted := some (teams_message summary),
                  teamsErrorShown := decide (status ≠ 200),
                  embeddingShown := none, sessionSummary := prevSummary,
                  outerErrorShown := true }
            | some vec =>
                { combined := combined_transcript, sentToModel := sent,
                  summaryShown := some summary,
                  teamsPosted := some (teams_message summary),
                  teamsErrorShown := decide (status ≠ 200),
                  embeddingShown := some vec, sessionSummary := some summary,
                  outerErrorShown := false }
      else
        match inp.embedding with
        | none =>
            { combined := combined_transcript, sentToModel := sent,
              summaryShown := some summary, teamsPosted := none,
              teamsErrorShown := false, embeddingShown := none,
              sessionSummary := prevSummary, outerErrorShown := true }
        | some vec =>
            { combined := combined_transcript, sentToModel := sent,
              summaryShown := some summary, teamsPosted := none,
              teamsErrorShown := false, embeddingShown := some vec,
              sessionSummary := some summary, outerErrorShown := false }

/-- The domain marker tested by `fetch_transcript`, app.py line 45. -/
def ytDomain : List Char := "youtube.com".data

/-- The branch condition of `fetch_transcript`, app.py line 45: Python's
`"youtube.com" in source` is substring containment. -/
def fetch_is_video_branch (source : List Char) : Bool :=
  decide (ytDomain <:+: source)

/-- Python's `str.split(sep)` for a non-empty separator, over lists of characters:
scan left to right; each non-overlapping occurrence of `sep` ends the current chunk.
A split of any string is never empty, so the `[[c]]` arm of the inner match is never
taken (see `pysplit_ne_nil`). -/
def pysplit (sep : List Char) : List Char → List (List Char)
  | [] => [[]]
  | c :: rest =>
    if sep <+: (c :: rest) then
      [] :: pysplit sep (List.drop (sep.length - 1) rest)
    else
      match pysplit sep rest with
      | [] => [[c]]
      | p :: ps => (c :: p) :: ps
termination_by l => l.length
decreasing_by
  all_goals simp only [List.length_drop, List.length_cons]
  all_goals omega

/-- The video id computed by `extract_transcript`, app.py line 39:
`youtube_url.split("v=")[-1]`, i.e. the last element of the Python split.  The split is
never empty, so the `getLastD` default is never used. -/
def extract_video_id (youtube_url : List Char) : List Char :=
  (pysplit ['v', '='] youtube_url).getLastD youtube_url

/-! Helper lemmas about the aggregation loop. -/

/-- One loop iteration appends exactly the contribution of its source. -/
theorem aggregate_step_eq (acc : String) (n : Nat) (r : Option String) :
    aggregate_step acc (n, r) = acc ++ contribution n r := by
  cases r <;> simp [aggregate_step, contribution]

/-- The fold underlying `aggregate`, for an arbitrary start index and accumulator,
equals the accumulator followed by the concatenation of the per-source
contributions in input order. -/
theorem aggregate_go (results : List (Option String)) :
    ∀ (n : Nat) (acc : String),
      (List.enumFrom n results).foldl aggregate_step acc
        = acc ++ concatStrings ((List.enumFrom n results).map fun p => contribution p.1 p.2) := by
  induction results with
  | nil => intro n acc; simp [concatStrings]
  | cons r rs ih =>
    intro n acc
    simp only [List.enumFrom_cons, List.foldl_cons, List.map_cons, concatStrings]
    rw [aggregate_step_eq, ih, String.append_assoc]

/-- If every fetch outcome is a failure, the fold leaves the accumulator unchanged. -/
theorem aggregate_go_none (results : List (Option String)) :
    ∀ (n : Nat) (acc : String), (∀ r ∈ results, r = none) →
      (List.enumFrom n results).foldl aggregate_step acc = acc := by
  induction results with
  | nil => intro n acc _; rfl
  | cons r rs ih =>
    intro n acc h
    have hr : r = none := h r (by simp)
    subst hr
    simp only [List.enumFrom_cons, List.foldl_cons]
    rw [aggregate_step_eq]
    simp only [contribution, String.append_empty]
    exact ih (n + 1) acc fun x hx => h x (by simp [hx])

/-! Helper lemmas about the handler. -/

/-- The aggregated document of a run is `aggregate` of the fetch outcomes, in every
branch of the handler. -/
theorem runHandler_combined (prevSummary : Option String) (inp : RunInputs) :
    (runHandler prevSummary inp).combined = aggregate inp.fetches := by
  obtain ⟨f, s, pe, t, e⟩ := inp
  cases s <;> cases pe <;> cases t <;> cases e <;> rfl

/-- The contents sent to the text-generation model are built by
`generate_summary_contents` from the aggregated document, in every branch of the
handler. -/
theorem runHandler_sentToModel (prevSummary : Option String) (inp : RunInputs) :
    (runHandler prevSummary inp).sentToModel
      = generate_summary_contents (aggregate inp.fetches) := by
  obtain ⟨f, s, pe, t, e⟩ := inp
  cases s <;> cases pe <;> cases t <;> cases e <;> rfl

/-! Helper lemmas about `pysplit`. -/

/-- Equation: splitting the empty string. -/
theorem pysplit_nil (sep : List Char) : pysplit sep [] = [[]] := by
  rw [pysplit]

/-- Equation: the separator matches at the head. -/
theorem pysplit_cons_pos (sep : List Char) (c : Char) (rest : List Char)
    (hp : sep <+: (c :: rest)) :
    pysplit sep (c :: rest) = [] :: pysplit sep (List.drop (sep.length - 1) rest) := by
  rw [pysplit, if_pos hp]

/-- Equation: the separator does not match at the head. -/
theorem pysplit_cons_neg (sep : List Char) (c : Char) (rest : List Char)
    (hp : ¬ sep <+: (c :: rest)) :
    pysplit sep (c :: rest)
      = match pysplit sep rest with
        | [] => [[c]]
        | p :: ps => (c :: p) :: ps := by
  rw [pysplit, if_neg hp]

/-- A substring occurrence in `c :: l₂` is either an occurrence at the very front or an
occurrence inside `l₂`. -/
theorem contains_cons_cases {l₁ l₂ : List Char} {c : Char}
    (h : l₁ <:+: (c :: l₂)) : l₁ <+: (c :: l₂) ∨ l₁ <:+: l₂ := by
  obtain ⟨s, t, hst⟩ := h
  cases s with
  | nil => exact Or.inl ⟨t, by simpa using hst⟩
  | cons x s₂ =>
    simp only [List.cons_append] at hst
    injection hst with h1 h2
    exact Or.inr ⟨s₂, t, h2⟩

/-- A split is never the empty list of chunks. -/
theorem pysplit_ne_nil (sep l : List Char) : pysplit sep l ≠ [] := by
  cases l with
  | nil => rw [pysplit_nil]; simp
  | cons c rest =>
    by_cases hp : sep <+: (c :: rest)
    · rw [pysplit_cons_pos sep c rest hp]; simp
    · rw [pysplit_cons_neg sep c rest hp]
      cases pysplit sep rest <;> simp

/-- `getLast?` ignores an element consed onto a non-empty list. -/
theorem getLast?_cons_of_ne_nil {α : Type} (a : α) {l : List α} (h : l ≠ []) :
    (a :: l).getLast? = l.getLast? := by
  cases l with
  | nil => exact absurd rfl h
  | cons b bs => exact List.getLast?_cons_cons

/-- If the separator occurs in the string, the split has at least two chunks. -/
theorem pysplit_length_two (sep : List Char) (hsep : sep ≠ []) (l : List Char)
    (h : sep <:+: l) : 2 ≤ (pysplit sep l).length := by
  induction l with
  | nil =>
    obtain ⟨s, t, hst⟩ := h
    simp only [List.append_eq_nil] at hst
    exact absurd hst.1.2 hsep
  | cons c rest ih =>
    by_cases hp : sep <+: (c :: rest)
    · rw [pysplit_cons_pos sep c rest hp]
      have hne := pysplit_ne_nil sep (List.drop (sep.length - 1) rest)
      have hl := List.length_pos.mpr hne
      simp only [List.length_cons]
      omega
    · rcases contains_cons_cases h with hpre | hrest
      · exact absurd hpre hp
      · have h2 := ih hrest
        rw [pysplit_cons_neg sep c rest hp]
        cases hps : pysplit sep rest with
        | nil => exact absurd hps (pysplit_ne_nil sep rest)
        | cons p ps =>
          rw [hps] at h2
          simp only [List.length_cons] at h2 ⊢
          omega

/-- The last chunk of a split: it contains no occurrence of the separator, and either
there was no occurrence at all (the split is the single chunk `l` itself) or the string
decomposes as everything up to and including the last occurrence followed by the last
chunk. -/
theorem pysplit_last_spec (sep : List Char) (hsep : sep ≠ []) (l : List Char) :
    ∃ r, (pysplit sep l).getLast? = some r ∧ ¬ sep <:+: r ∧
      ((pysplit sep l = [l] ∧ ¬ sep <:+: l) ∨ ∃ pre, pre ++ sep ++ r = l) := by
  cases l with
  | nil =>
    have hni : ¬ sep <:+: ([] : List Char) := by
      intro hin
      obtain ⟨s, t, hst⟩ := hin
      simp only [List.append_eq_nil] at hst
      exact hsep hst.1.2
    exact ⟨[], by rw [pysplit_nil]; rfl, hni, Or.inl ⟨by rw [pysplit_nil], hni⟩⟩
  | cons c rest =>
    by_cases hp : sep <+: (c :: rest)
    · obtain ⟨tl, htl⟩ := hp
      have hdrop : List.drop (sep.length - 1) rest = tl := by
        cases sep with
        | nil => exact absurd rfl hsep
        | cons s0 stl =>
          simp only [List.cons_append] at htl
          injection htl with h1 h2
          subst h2
          simp only [List.length_cons, Nat.add_sub_cancel]
          exact List.drop_left stl tl
      obtain ⟨r, hlast, hnr, hdisj⟩ := pysplit_last_spec sep hsep tl
      rw [pysplit_cons_pos sep c rest ⟨tl, htl⟩, hdrop]
      refine ⟨r, ?_, hnr, Or.inr ?_⟩
      · rw [getLast?_cons_of_ne_nil _ (pysplit_ne_nil sep tl)]; exact hlast
      · rcases hdisj with ⟨hsingle, hnl⟩ | ⟨pre, hpre⟩
        · rw [hsingle] at hlast
          simp only [List.getLast?_singleton, Option.some.injEq] at hlast
          subst hlast
          exact ⟨[], by simpa using htl⟩
        · refine ⟨sep ++ pre, ?_⟩
          rw [← htl, ← hpre]
          simp [List.append_assoc]
    · obtain ⟨r, hlast, hnr, hdisj⟩ := pysplit_last_spec sep hsep rest
      cases hps : pysplit sep rest with
      | nil => exact absurd hps (pysplit_ne_nil sep rest)
      | cons p ps =>
        rw [hps] at hlast
        have heq : pysplit sep (c :: rest)
            = match p :: ps with
              | [] => [[c]]
              | p :: ps => (c :: p) :: ps := by
          rw [pysplit_cons_neg sep c rest hp, hps]
        cases ps with
        | nil =>
          simp only [List.getLast?_singleton, Option.some.injEq] at hlast
          rcases hdisj with ⟨hsingle, hnl⟩ | ⟨pre, hpre⟩
          · rw [hps] at hsingle
            have hpr : p = rest := by
              injection hsingle
            have hnc : ¬ sep <:+: (c :: rest) := by
              intro hin
              rcases contains_cons_cases hin with h1 | h2
              · exact hp h1
              · exact hnl h2
            refine ⟨c :: rest, ?_, hnc, Or.inl ⟨?_, hnc⟩⟩
            · rw [heq, hpr]
              rfl
            · rw [heq, hpr]
          · have hin : sep <:+: rest := ⟨pre, r, hpre⟩
            have hlen := pysplit_length_two sep hsep rest hin
            rw [hps] at hlen
            simp at hlen
        | cons q qs =>
          refine ⟨r, ?_, hnr, Or.inr ?_⟩
          · rw [heq]
            rw [show (match p :: q :: qs with
                  | [] => [[c]]
                  | p :: ps => (c :: p) :: ps) = (c :: p) :: q :: qs from rfl]
            rw [List.getLast?_cons_cons]
            rw [List.getLast?_cons_cons] at hlast
            exact hlast
          · rcases hdisj with ⟨hsingle, hnl⟩ | ⟨pre, hpre⟩
            · rw [hps] at hsingle
              injection hsingle with hx hy
              exact absurd hy (by simp)
            · refine ⟨c :: pre, ?_⟩
              simp only [List.cons_append]
              rw [show pre ++ sep ++ r = rest from hpre]
termination_by l.length
decreasing_by
  · have hlen := congrArg List.length htl
    simp only [List.length_append, List.length_cons] at hlen
    have hsl : 0 < sep.length := List.length_pos.mpr hsep
    simp only [List.length_cons]
    omega
  · simp only [List.length_cons]
    omega

/-! Claim theorems. -/

/-- C1: the Aggregated Document built by the aggregation loop equals the in-order
concatenation of one contribution per source — for the source at 1-based input position
i whose fetch succeeds, a blank line, the separator line for ordinal i, a newline, then
the fetched text; for a failed fetch, the empty string — so the document's segments
appear in the same order as the input list regardless of which fetches fail. -/
theorem aggregate_is_ordered_concat (results : List (Option String)) :
    aggregate results
      = concatStrings ((List.enumFrom 1 results).map fun p => contribution p.1 p.2) := by
  unfold aggregate
  rw [aggregate_go, String.empty_append]

/-- C2: the text sent to the remote summarization service equals the fixed instruction
header PROMPT_HEADER concatenated with the Aggregated Document exactly — one content
block, no truncation, no reordering, no other transformation — both for an arbitrary
document and in every run of the handler. -/
theorem summary_request_exact :
    (∀ combined_transcript : String,
        generate_summary_contents combined_transcript
          = [PROMPT_HEADER ++ combined_transcript]) ∧
    (∀ (prevSummary : Option String) (inp : RunInputs),
        (runHandler prevSummary inp).sentToModel
          = [PROMPT_HEADER ++ aggregate inp.fetches]) := by
  refine ⟨fun _ => rfl, fun prevSummary inp => ?_⟩
  rw [runHandler_sentToModel]
  rfl

/-- C3 counterexample: with the Summarizer succeeded and the Summary displayed, an
embedding failure does NOT leave the Summary available for Q&A as if the embedding had
succeeded: the session store stays empty when the embedding call raises, while the very
same run with a successful embedding stores the Summary. -/
theorem embedding_failure_drops_stored_summary :
    (runHandler none
        { fetches := [], summary := some ("S"), postEnabled := false,
          teams := none, embedding := none }).sessionSummary = none ∧
    (runHandler none
        { fetches := [], summary := some ("S"), postEnabled := false,
          teams := none, embedding := some [0] }).sessionSummary = some ("S") :=
  ⟨rfl, rfl⟩

/-- C3 amended: when the embedding call fails after the Summary was produced and
displayed, the failure is surfaced through the run's outer error handler and does not
affect the already-displayed Summary or the notification outcome (both happen before the
embedding call); however the Summary of that run is NOT stored for subsequent Q&A —
`st.session_state.summary` keeps its previous value, because the store on line 137 comes
after the embedding call inside the same try block. -/
theorem embedding_failure_behavior (prevSummary : Option String) (inp : RunInputs)
    (s : String) (hs : inp.summary = some s) (he : inp.embedding = none) :
    (runHandler prevSummary inp).summaryShown = some s ∧
    (runHandler prevSummary inp).teamsPosted
      = (if inp.postEnabled then some (teams_message s) else none) ∧
    (runHandler prevSummary inp).embeddingShown = none ∧
    (runHandler prevSummary inp).sessionSummary = prevSummary ∧
    (runHandler prevSummary inp).outerErrorShown = true := by
  obtain ⟨f, s₀, pe, t, e⟩ := inp
  cases hs
  cases he
  cases pe <;> cases t <;> exact ⟨rfl, rfl, rfl, rfl, rfl⟩

/-- Witness for the amended embedding-failure theorem at a concrete run. -/
theorem embedding_failure_behavior_witness :
    (runHandler (some ("old"))
        { fetches := [some ("T")], summary := some ("S"), postEnabled := true,
          teams := some 200, embedding := none }).summaryShown = some ("S") ∧
    (runHandler (some ("old"))
        { fetches := [some ("T")], summary := some ("S"), postEnabled := true,
          teams := some 200, embedding := none }).teamsPosted
      = some (teams_message ("S")) ∧
    (runHandler (some ("old"))
        { fetches := [some ("T")], summary := some ("S"), postEnabled := true,
          teams := some 200, embedding := none }).embeddingShown = none ∧
    (runHandler (some ("old"))
        { fetches := [some ("T")], summary := some ("S"), postEnabled := true,
          teams := some 200, embedding := none }).sessionSummary = some ("old") ∧
    (runHandler (some ("old"))
        { fetches := [some ("T")], summary := some ("S"), postEnabled := true,
          teams := some 200, embedding := none }).outerErrorShown = true :=
  embedding_failure_behavior (some ("old"))
    { fetches := [some ("T")], summary := some ("S"), postEnabled := true,
      teams := some 200, embedding := none } ("S") rfl rfl

/-- C4 counterexample: when the POST to the webhook fails with a transport exception,
the subsequent steps of the run do NOT execute: even though the embedding call would
have succeeded, no embedding is shown and the Summary is not stored for Q&A (only the
already-displayed Summary remains). -/
theorem teams_transport_failure_skips_rest :
    (runHandler none
        { fetches := [], summary := some ("S"), postEnabled := true,
          teams := none, embedding := some [0] }).summaryShown = some ("S") ∧
    (runHandler none
        { fetches := [], summary := some ("S"), postEnabled := true,
          teams := none, embedding := some [0] }).embeddingShown = none ∧
    (runHandler none
        { fetches := [], summary := some ("S"), postEnabled := true,
          teams := none, embedding := some [0] }).sessionSummary = none ∧
    (runHandler none
        { fetches := [], summary := some ("S"), postEnabled := true,
          teams := none, embedding := some [0] }).outerErrorShown = true :=
  ⟨rfl, rfl, rfl, rfl⟩

/-- C4 amended: a non-200 webhook response is reported (by `post_to_teams` via its own
error display), is not retried, and is not fatal — the embedding step and the Summary
store still execute; but a transport failure of the POST propagates to the run's outer
error handler, which reports it, and then neither the embedding nor the Summary store of
that run executes (the already-displayed Summary merely remains displayed). -/
theorem teams_failure_behavior (prevSummary : Option String) (inp : RunInputs)
    (s : String) (hs : inp.summary = some s) (hp : inp.postEnabled = true) :
    (∀ status, inp.teams = some status → status ≠ 200 →
        (runHandler prevSummary inp).teamsErrorShown = true ∧
        (runHandler prevSummary inp).teamsPosted = some (teams_message s) ∧
        (runHandler prevSummary inp).embeddingShown = inp.embedding ∧
        (runHandler prevSummary inp).sessionSummary
          = (match inp.embedding with | some _ => some s | none => prevSummary)) ∧
    (inp.teams = none →
        (runHandler prevSummary inp).summaryShown = some s ∧
        (runHandler prevSummary inp).teamsPosted = some (teams_message s) ∧
        (runHandler prevSummary inp).embeddingShown = none ∧
        (runHandler prevSummary inp).sessionSummary = prevSummary ∧
        (runHandler prevSummary inp).outerErrorShown = true) := by
  obtain ⟨f, s₀, pe, t, e⟩ := inp
  cases hs
  cases hp
  constructor
  · intro status ht hne
    cases ht
    cases e
    · exact ⟨decide_eq_true hne, rfl, rfl, rfl⟩
    · exact ⟨decide_eq_true hne, rfl, rfl, rfl⟩
  · intro ht
    cases ht
    exact ⟨rfl, rfl, rfl, rfl, rfl⟩

/-- Witness for the amended notification-failure theorem: a concrete run with a
non-200 webhook response, where embedding and the Summary store still execute. -/
theorem teams_failure_behavior_witness :
    (runHandler none
        { fetches := [], summary := some ("S"), postEnabled := true,
          teams := some 500, embedding := some [2] }).teamsErrorShown = true ∧
    (runHandler none
        { fetches := [], summary := some ("S"), postEnabled := true,
          teams := some 500, embedding := some [2] }).teamsPosted
      = some (teams_message ("S")) ∧
    (runHandler none
        { fetches := [], summary := some ("S"), postEnabled := true,
          teams := some 500, embedding := some [2] }).embeddingShown = some [2] ∧
    (runHandler none
        { fetches := [], summary := some ("S"), postEnabled := true,
          teams := some 500, embedding := some [2] }).sessionSummary = some ("S") :=
  (teams_failure_behavior none
      { fetches := [], summary := some ("S"), postEnabled := true,
        teams := some 500, embedding := some [2] } ("S") rfl rfl).1
    500 rfl (by decide)

/-- C5 counterexample: the generic fetch does NOT fail for every non-2xx status — a
final response with status 304 (not a 2xx) is returned as a success with its body. -/
theorem fetch_generic_non2xx_success :
    fetch_generic 304 ("cached") = some ("cached") ∧ ¬ (200 ≤ 304 ∧ 304 < 300) := by
  exact ⟨rfl, by omega⟩

/-- C5 amended: the generic (non-video) branch issues a GET and returns the response
body as text exactly when the final status code is outside 400-599 (the range for which
`raise_for_status` raises), and fails exactly for 4xx/5xx statuses.  Every 2xx succeeds,
but so do 1xx/3xx statuses such as 304. -/
theorem fetch_generic_status_characterization (status : Nat) (body : String) :
    (fetch_generic status body = some body ↔ (status < 400 ∨ 600 ≤ status)) ∧
    (fetch_generic status body = none ↔ (400 ≤ status ∧ status < 600)) := by
  by_cases h : 400 ≤ status ∧ status < 600
  all_goals simp [fetch_generic, h]
  all_goals omega

/-- C6: when the summarization call fails, the error is surfaced through the outer
error handler and the run aborts with no partial summary: no Summary is displayed,
the webhook is not posted, no embedding is shown, and no Summary is stored for Q&A
(`st.session_state.summary` keeps its previous value). -/
theorem summary_failure_aborts_run (prevSummary : Option String) (inp : RunInputs)
    (h : inp.summary = none) :
    (runHandler prevSummary inp).summaryShown = none ∧
    (runHandler prevSummary inp).teamsPosted = none ∧
    (runHandler prevSummary inp).teamsErrorShown = false ∧
    (runHandler prevSummary inp).embeddingShown = none ∧
    (runHandler prevSummary inp).sessionSummary = prevSummary ∧
    (runHandler prevSummary inp).outerErrorShown = true := by
  obtain ⟨f, s, pe, t, e⟩ := inp
  cases h
  exact ⟨rfl, rfl, rfl, rfl, rfl, rfl⟩

/-- Witness for the summarization-failure theorem at a concrete run. -/
theorem summary_failure_aborts_run_witness :
    (runHandler (some ("old"))
        { fetches := [some ("T")], summary := none, postEnabled := true,
          teams := some 200, embedding := some [1] }).summaryShown = none ∧
    (runHandler (some ("old"))
        { fetches := [some ("T")], summary := none, postEnabled := true,
          teams := some 200, embedding := some [1] }).teamsPosted = none ∧
    (runHandler (some ("old"))
        { fetches := [some ("T")], summary := none, postEnabled := true,
          teams := some 200, embedding := some [1] }).teamsErrorShown = false ∧
    (runHandler (some ("old"))
        { fetches := [some ("T")], summary := none, postEnabled := true,
          teams := some 200, embedding := some [1] }).embeddingShown = none ∧
    (runHandler (some ("old"))
        { fetches := [some ("T")], summary := none, postEnabled := true,
          teams := some 200, embedding := some [1] }).sessionSummary = some ("old") ∧
    (runHandler (some ("old"))
        { fetches := [some ("T")], summary := none, postEnabled := true,
          teams := some 200, embedding := some [1] }).outerErrorShown = true :=
  summary_failure_aborts_run (some ("old"))
    { fetches := [some ("T")], summary := none, postEnabled := true,
      teams := some 200, embedding := some [1] } rfl

/-- C7: the prompt sent by the Q&A responder contains the Summary verbatim and the
Question verbatim, with the Summary occurring before the Question, for every pair of
strings (including empty strings and strings with special characters). -/
theorem qa_prompt_contains_summary_then_question (s q : String) :
    ∃ a b c, ask_chatbot_prompt s q = a ++ s ++ b ++ q ++ c :=
  ⟨"You are an assistant. Based on the following video summary, answer the user’s question clearly and briefly.\n\nVideo Summary:\n",
   "\n\nUser Question:\n", "\n\nAnswer:", rfl⟩

/-- C8: for every Summary string S, the Notifier's POST body parses to exactly one
field, named "text", whose value is the markdown header followed by S, so it contains S
as a contiguous substring. -/
theorem teams_payload_shape (S : String) :
    post_to_teams_payload S = [("text", teams_message S)] ∧
    teams_message S = "**📽️ Combined Video Summary**\n\n" ++ S ∧
    S.data <:+: (teams_message S).data := by
  refine ⟨rfl, rfl, ⟨("**📽️ Combined Video Summary**\n\n").data, [], ?_⟩⟩
  simp [teams_message]

/-- C9: the Source Fetcher dispatches on substring containment — the video branch is
taken exactly when "youtube.com" occurs anywhere in the source string — and the
extracted video identifier is the substring after the last occurrence of "v=" in the
URL: when "v=" does not occur, the identifier is the entire URL string; when it does,
the URL decomposes as a (last-occurrence) prelude, "v=", then the identifier, which
itself contains no further occurrence of "v=". -/
theorem fetch_dispatch_and_video_id (source : List Char) :
    (fetch_is_video_branch source = true ↔ ytDomain <:+: source) ∧
    (¬ (['v', '='] <:+: source) → extract_video_id source = source) ∧
    (['v', '='] <:+: source →
      ∃ pre, pre ++ ['v', '='] ++ extract_video_id source = source ∧
        ¬ (['v', '='] <:+: extract_video_id source)) := by
  have hsep : (['v', '='] : List Char) ≠ [] := by simp
  obtain ⟨r, hlast, hnr, hdisj⟩ := pysplit_last_spec ['v', '='] hsep source
  refine ⟨by simp [fetch_is_video_branch], ?_, ?_⟩
  · intro hno
    rcases hdisj with ⟨hsingle, _⟩ | ⟨pre, hpre⟩
    · simp [extract_video_id, hsingle]
    · exact absurd ⟨pre, r, hpre⟩ hno
  · intro hyes
    rcases hdisj with ⟨_, hnl⟩ | ⟨pre, hpre⟩
    · exact absurd hyes hnl
    · have hev : extract_video_id source = r := by
        unfold extract_video_id
        rw [List.getLastD_eq_getLast?, hlast]
        rfl
      rw [hev]
      exact ⟨pre, hpre, hnr⟩

/-- Witness for the dispatch-and-video-id theorem at a concrete YouTube URL. -/
theorem fetch_dispatch_and_video_id_witness :
    ∃ pre,
      pre ++ ['v', '=']
          ++ extract_video_id ("https://www.youtube.com/watch?v=dQw4w9WgXcQ".data)
        = ("https://www.youtube.com/watch?v=dQw4w9WgXcQ".data) ∧
      ¬ (['v', '=']
          <:+: extract_video_id ("https://www.youtube.com/watch?v=dQw4w9WgXcQ".data)) :=
  (fetch_dispatch_and_video_id ("https://www.youtube.com/watch?v=dQw4w9WgXcQ".data)).2.2
    (by decide)

/-- C10: when every source fetch of a run fails, the Aggregated Document is the empty
string and the pipeline still proceeds to summarization, invoking the text-generation
service with exactly the fixed instruction header and nothing after it. -/
theorem all_fetches_fail_header_only (prevSummary : Option String) (inp : RunInputs)
    (h : ∀ r ∈ inp.fetches, r = none) :
    (runHandler prevSummary inp).combined = "" ∧
    (runHandler prevSummary inp).sentToModel = [PROMPT_HEADER] := by
  have hagg : aggregate inp.fetches = "" := by
    unfold aggregate
    exact aggregate_go_none inp.fetches 1 "" h
  refine ⟨?_, ?_⟩
  · rw [runHandler_combined, hagg]
  · rw [runHandler_sentToModel, hagg]
    simp [generate_summary_contents]

/-- Witness for the all-fetches-fail theorem: a non-empty input list of two sources,
both of whose fetches raise. -/
theorem all_fetches_fail_header_only_witness :
    (runHandler none
        { fetches := [none, none], summary := some ("ok"), postEnabled := false,
          teams := none, embedding := some [] }).combined = "" ∧
    (runHandler none
        { fetches := [none, none], summary := some ("ok"), postEnabled := false,
          teams := none, embedding := some [] }).sentToModel = [PROMPT_HEADER] :=
  all_fetches_fail_header_only none
    { fetches := [none, none], summary := some ("ok"), postEnabled := false,
      teams := none, embedding := some [] } (by decide)

end VidBot
